import Mathlib

/-!
Verification of the trust-logic core of the Key-Exchange repository
(scripts/gpg_utils.py and scripts/sign_all.py), shallowly embedded in Lean.

Machine-readable gpg output streams are modelled as Lean strings; the
Python `str.split` calls (always with a one-character separator, `"\n"` or
`":"`) become `splitChar`, a structurally recursive splitter with Python's
`str.split(sep)` semantics (n separators yield n+1 pieces, empty pieces
kept, the empty string yielding `[""]`), and the guarded positional field
accesses `parts[i]` (always behind a `len(parts) > i` check in the source)
become `List.getD i ""`.
-/

set_option maxRecDepth 100000

namespace Gpg

/-- Splits a character list at every occurrence of the separator `c`;
the pieces do not contain `c`, and n separators yield n+1 pieces. -/
def splitCharList (c : Char) : List Char → List (List Char)
  | [] => [[]]
  | x :: xs =>
    match splitCharList c xs with
    | [] => [[]]
    | g :: gs => if x = c then [] :: g :: gs else (x :: g) :: gs

/-- Python's `s.split(c)` for a one-character separator `c`. -/
def splitChar (c : Char) (s : String) : List String :=
  (splitCharList c s.data).map String.mk

/-- Python's `s.endswith(pat)`. -/
def strEndsWith (s pat : String) : Bool := pat.data.isSuffixOf s.data

/-- `COURSE_FINGERPRINT` from scripts/gpg_utils.py. -/
def COURSE_FINGERPRINT : String := "4DD5B3791798E493F6499F8DA049C765A07C89D8"

/-- `COURSE_LONG_ID = COURSE_FINGERPRINT[-16:]` from scripts/gpg_utils.py. -/
def COURSE_LONG_ID : String := COURSE_FINGERPRINT.drop (COURSE_FINGERPRINT.length - 16)

/-- `line.split(":")`: the colon-separated fields of one record line. -/
def lineParts (l : String) : List String := splitChar ':' l

/-- The `KeyInfo` dataclass of scripts/gpg_utils.py. -/
structure KeyInfo where
  key_id : String
  fingerprint : String
  uid : String
  filepath : Option String
  has_course_signature : Bool
  is_course_key : Bool
deriving DecidableEq

/-- The loop state of `parse_key_info`: the tracked first `pub` key id,
first `fpr` fingerprint and first `uid` user id (each `None` until seen). -/
structure ParseState where
  key_id : Option String
  fingerprint : Option String
  uid : Option String
deriving DecidableEq

/-- One iteration of the line loop of `parse_key_info`
(scripts/gpg_utils.py lines 86-96): lines with fewer than 2 fields are
skipped; the first `pub`/`fpr`/`uid` record fills its slot, with the slot
left absent when the line is shorter than the needed field index. -/
def parseStep (st : ParseState) (line : String) : ParseState :=
  let parts := lineParts line
  if parts.length < 2 then st
  else if parts.getD 0 "" = "pub" ∧ st.key_id = none then
    { st with key_id := if 4 < parts.length then some (parts.getD 4 "") else none }
  else if parts.getD 0 "" = "fpr" ∧ st.fingerprint = none then
    { st with fingerprint := if 9 < parts.length then some (parts.getD 9 "") else none }
  else if parts.getD 0 "" = "uid" ∧ st.uid = none then
    { st with uid := if 9 < parts.length then some (parts.getD 9 "") else none }
  else st

/-- `parse_key_info` (scripts/gpg_utils.py lines 80-105).  The final Python
truthiness test `if key_id and fingerprint` demands both fields present and
non-empty; `uid or ""` collapses an absent or empty uid to `""`. -/
def parse_key_info (gpg_output : String) : Option KeyInfo :=
  let st := (splitChar '\n' gpg_output).foldl parseStep ⟨none, none, none⟩
  match st.key_id, st.fingerprint with
  | some k, some f =>
    if k ≠ "" ∧ f ≠ "" then
      some { key_id := k, fingerprint := f, uid := st.uid.getD "",
             filepath := none, has_course_signature := false,
             is_course_key := decide (f = COURSE_FINGERPRINT) }
    else none
  | _, _ => none

/-- The block-start test of `check_course_signature`
(scripts/gpg_utils.py line 125): `record_type == "pub" and len(parts) > 4`. -/
def isFullPub (l : String) : Bool :=
  decide ((lineParts l).getD 0 "" = "pub" ∧ 4 < (lineParts l).length)

/-- The `current_key_is_student` update of `check_course_signature`
(lines 125-127): a `pub` record with a short-id field resets the flag to
"this block's key id differs from the course long id". -/
def stuUpd (st : Bool) (l : String) : Bool :=
  if isFullPub l then decide ((lineParts l).getD 4 "" ≠ COURSE_LONG_ID) else st

/-- The signer-match test of `check_course_signature` (lines 130-135):
a `sig` record with more than 12 fields whose signer fingerprint (field 12)
is the course fingerprint or whose signer key id (field 4) is the course
long id. -/
def sigMatchLine (l : String) : Bool :=
  decide ((lineParts l).getD 0 "" = "sig" ∧ 12 < (lineParts l).length ∧
    ((lineParts l).getD 12 "" = COURSE_FINGERPRINT ∨
     (lineParts l).getD 4 "" = COURSE_LONG_ID))

/-- The line loop of `check_course_signature` (lines 117-138): on the first
matching `sig` record inside a student block the scan returns
`validity == "!"` (field 1) immediately; reaching the end returns false.
The state update and the match test use the state after the current line's
`pub` handling, exactly as the Python code does. -/
def checkLines : Bool → List String → Bool
  | _, [] => false
  | st, l :: rest =>
    if sigMatchLine l && stuUpd st l then decide ((lineParts l).getD 1 "" = "!")
    else checkLines (stuUpd st l) rest

/-- `check_course_signature` (scripts/gpg_utils.py lines 108-138), over the
raw `gpg --check-sigs --with-colons` output text. -/
def check_course_signature (gpg_output : String) : Bool :=
  checkLines false (splitChar '\n' gpg_output)

/-- A record line of kind `pub`: at least two colon-separated fields whose
first field is `pub` (the record-parser notion of a pub record; its short id
may still be absent). -/
def isPubRec (l : String) : Bool :=
  decide (2 ≤ (lineParts l).length ∧ (lineParts l).getD 0 "" = "pub")

/-- A record line of kind `sig`. -/
def isSigRec (l : String) : Bool :=
  decide (2 ≤ (lineParts l).length ∧ (lineParts l).getD 0 "" = "sig")

/-- The (optional) short id of a `pub` record: field 4 when present. -/
def pubShortId (l : String) : Option String :=
  if 4 < (lineParts l).length then some ((lineParts l).getD 4 "") else none

/-- The `current_key_id` update of `count_signatures`
(scripts/gpg_utils.py lines 291-292): every `pub` record resets the tracked
subject id, to `None` when the short-id field is absent. -/
def curUpd (cur : Option String) (l : String) : Option String :=
  if isPubRec l then pubShortId l else cur

/-- The counting test of `count_signatures` (lines 294-301): a `sig` record
with more than 9 fields whose signer key id (field 4) differs from the
tracked subject id and whose validity (field 1) is `"!"` contributes its
signer uid (field 9). -/
def count_sig_line (cur : Option String) (l : String) : Option String :=
  let parts := lineParts l
  if parts.getD 0 "" = "sig" ∧ 9 < parts.length ∧
      cur ≠ some (parts.getD 4 "") ∧ parts.getD 1 "" = "!"
  then some (parts.getD 9 "") else none

/-- The line loop of `count_signatures` (lines 286-301), accumulating the
counted signer uids in stream order. -/
def countSigAux (cur : Option String) : List String → List String
  | [] => []
  | l :: rest =>
    if (lineParts l).length < 2 then countSigAux cur rest
    else
      match count_sig_line (curUpd cur l) l with
      | some u => u :: countSigAux (curUpd cur l) rest
      | none => countSigAux (curUpd cur l) rest

/-- `count_signatures` (scripts/gpg_utils.py lines 274-303) as a function of
the `gpg --check-sigs --with-colons` stream the gpg call produced: returns
`(len(signers), signers)`. -/
def count_signatures (gpg_output : String) : Nat × List String :=
  let signers := countSigAux none (splitChar '\n' gpg_output)
  (signers.length, signers)

/-! ### Spec-side block attribution

The spec's Key Block Tracker attributes every `sig` record to the nearest
preceding `pub` record.  The following definitions state that attribution
positionally, independently of the scan state the code maintains. -/

/-- The line at position `i` of a line list (`""` past the end; every
access below is guarded by `i < lines.length`). -/
def lineAt (lines : List String) (i : Nat) : String := lines.getD i ""

/-- The nearest `pub` record preceding position `i`, searching backwards. -/
def nearestPubLine (lines : List String) (i : Nat) : Option String :=
  ((lines.take i).reverse).find? isPubRec

/-- The spec's subject attribution for position `i`: the (optional) short
id of the nearest preceding `pub` record, `none` when there is none or when
that `pub` record carries no short-id field. -/
def subjAt (lines : List String) (i : Nat) : Option String :=
  (nearestPubLine lines i).bind pubShortId

/-- The block id `check_course_signature`'s scan state corresponds to at
position `i`: the short id of the nearest preceding `pub` record that has a
short-id field (more than 4 fields). -/
def codeBlockId (lines : List String) (i : Nat) : Option String :=
  (((lines.take i).reverse).find? isFullPub).map (fun l => (lineParts l).getD 4 "")

/-- The `current_key_is_student` flag of `check_course_signature` as it
stands when the scan reaches position `i` (initial state `st`). -/
def stuAt (st : Bool) (lines : List String) (i : Nat) : Bool :=
  (lines.take i).foldl stuUpd st

/-- Position `i` holds a `sig` record on which `check_course_signature`'s
inner test fires: the record matches the course signer and the scan state
says the current block is a student block. -/
def fireAt (st : Bool) (lines : List String) (i : Nat) : Bool :=
  sigMatchLine (lineAt lines i) && stuAt st lines i

/-- Position `i` holds a `sig` record matching the course signer and
attributed (by the code's scan) to a student block: the claim-level firing
condition with the initial state `false` of `check_course_signature`,
phrased through `codeBlockId` instead of the evolving scan state. -/
def codeRootFireAt (lines : List String) (i : Nat) : Bool :=
  sigMatchLine (lineAt lines i) &&
    (match codeBlockId lines i with
     | some k => decide (k ≠ COURSE_LONG_ID)
     | none => false)

/-- The subject id `count_signatures`' tracker holds at position `i` when
its initial value is `cur`: the flattened short id of the nearest preceding
`pub` record, defaulting to `cur`. -/
def subjFrom (cur : Option String) (lines : List String) (i : Nat) : Option String :=
  match ((lines.take i).reverse).find? isPubRec with
  | some p => pubShortId p
  | none => cur

/-- The signer uids `count_signatures` must return, characterised
positionally: position `i` contributes its signer uid exactly when the
counting test passes with the subject attributed by the nearest preceding
`pub` record. -/
def specSigners (lines : List String) : List String :=
  (List.range lines.length).filterMap
    (fun i => count_sig_line (subjAt lines i) (lineAt lines i))

/-! ### Claim-side record fields

The spec's Record Parser reads each field of a record as optional: absent
when the line is shorter than the field's fixed index. -/

/-- The validity symbol of a `sig` record (field 1), when present. -/
def sigValidity (l : String) : Option String :=
  if 1 < (lineParts l).length then some ((lineParts l).getD 1 "") else none

/-- The signer short id of a `sig` record (field 4), when present. -/
def sigSignerId (l : String) : Option String :=
  if 4 < (lineParts l).length then some ((lineParts l).getD 4 "") else none

/-- The signer fingerprint of a `sig` record (field 12), when present. -/
def sigSignerFpr (l : String) : Option String :=
  if 12 < (lineParts l).length then some ((lineParts l).getD 12 "") else none

/-- Claim-level "sig record matching the root signer": a `sig` record whose
signer fingerprint or signer short id matches the course identifiers. -/
def claimRootMatch (l : String) : Bool :=
  isSigRec l && decide (sigSignerFpr l = some COURSE_FINGERPRINT ∨
                        sigSignerId l = some COURSE_LONG_ID)

/-- Claim-level "good root signature": a root-matching `sig` record whose
validity symbol is exactly `"!"`. -/
def claimGoodRootSig (l : String) : Bool :=
  claimRootMatch l && decide (sigValidity l = some "!")

/-- Claim-level "position `i` lies in a candidate (non-course) block": the
nearest preceding `pub` record exists and carries a short id different from
the course long id. -/
def inCandidateBlock (lines : List String) (i : Nat) : Bool :=
  match subjAt lines i with
  | some k => decide (k ≠ COURSE_LONG_ID)
  | none => false

/-! ### The trust verifier `verify_key_file`, with its effect trace

`verify_key_file` (scripts/gpg_utils.py lines 141-192) drives the external
gpg engine.  The engine's replies are an oracle (`GpgEngine`), and every
externally visible action — creating the temporary keyring directory,
running gpg against a home directory, removing the directory — is recorded
in an event trace.  The Python `try`/`finally` appends the `rmtree` event
on every exit path after `mkdtemp`. -/

/-- One externally visible action of `verify_key_file`.  A gpg event's
`Option String` is the `--homedir` argument: `some dir` for the ephemeral
keyring, `none` would be the caller's persistent keyring. -/
inductive VEvent where
  | mkdtemp (dir : String)
  | gpgImportFile (homedir : Option String) (file : String)
  | gpgListKeys (homedir : Option String)
  | gpgImportText (homedir : Option String)
  | gpgCheckSigs (homedir : Option String)
  | rmtree (dir : String)
deriving DecidableEq

/-- Event `e` stays inside the ephemeral keyring `t`: directory events name
`t` and gpg events run with `--homedir t` (so never against the caller's
persistent keyring). -/
def scopedTo (t : String) : VEvent → Bool
  | .mkdtemp d => decide (d = t)
  | .rmtree d => decide (d = t)
  | .gpgImportFile h _ => decide (h = some t)
  | .gpgListKeys h => decide (h = some t)
  | .gpgImportText h => decide (h = some t)
  | .gpgCheckSigs h => decide (h = some t)

/-- The gpg engine's replies to the calls `verify_key_file` makes, in call
order: the exit status and stderr of importing the candidate file, the
`--list-keys --with-colons` output, the exit status and stderr of importing
the course key, and the `--check-sigs --with-colons` output. -/
structure GpgEngine where
  importFileRc : Nat
  importFileErr : String
  listKeysOut : String
  importCourseRc : Nat
  importCourseErr : String
  checkSigsOut : String
deriving DecidableEq

/-- `verify_key_file` (scripts/gpg_utils.py lines 141-192).  `tmpdir` is
the fresh directory `tempfile.mkdtemp` returns, `pathExists` the
`os.path.exists` answer.  Returns the `(is_valid, message, key_info)`
triple and the event trace. -/
def verify_key_file (tmpdir : String) (pathExists : Bool) (keyfile_path : String)
    (eng : GpgEngine) : (Bool × String × Option KeyInfo) × List VEvent :=
  if pathExists = false then
    ((false, "File not found: " ++ keyfile_path, none), [])
  else if strEndsWith keyfile_path ".asc" = false then
    ((false, "File extension must be .asc: " ++ keyfile_path, none), [])
  else if eng.importFileRc ≠ 0 then
    ((false, "Failed to import key: " ++ eng.importFileErr, none),
     [.mkdtemp tmpdir, .gpgImportFile (some tmpdir) keyfile_path, .rmtree tmpdir])
  else
    match parse_key_info eng.listKeysOut with
    | none =>
      ((false, "Could not parse key information", none),
       [.mkdtemp tmpdir, .gpgImportFile (some tmpdir) keyfile_path,
        .gpgListKeys (some tmpdir), .rmtree tmpdir])
    | some ki0 =>
      let ki : KeyInfo := { ki0 with filepath := some keyfile_path }
      if ki.is_course_key = true then
        ((false, "This is the course key itself", some ki),
         [.mkdtemp tmpdir, .gpgImportFile (some tmpdir) keyfile_path,
          .gpgListKeys (some tmpdir), .rmtree tmpdir])
      else if eng.importCourseRc ≠ 0 then
        ((false, "Failed to import course key: " ++ eng.importCourseErr, none),
         [.mkdtemp tmpdir, .gpgImportFile (some tmpdir) keyfile_path,
          .gpgListKeys (some tmpdir), .gpgImportText (some tmpdir), .rmtree tmpdir])
      else if check_course_signature eng.checkSigsOut = true then
        ((true, "Key is signed by course key",
          some { ki with has_course_signature := true }),
         [.mkdtemp tmpdir, .gpgImportFile (some tmpdir) keyfile_path,
          .gpgListKeys (some tmpdir), .gpgImportText (some tmpdir),
          .gpgCheckSigs (some tmpdir), .rmtree tmpdir])
      else
        ((false, "Key is NOT signed by course key",
          some { ki with has_course_signature := false }),
         [.mkdtemp tmpdir, .gpgImportFile (some tmpdir) keyfile_path,
          .gpgListKeys (some tmpdir), .gpgImportText (some tmpdir),
          .gpgCheckSigs (some tmpdir), .rmtree tmpdir])

/-! ### The bulk signing orchestrator

The per-candidate loop of `main` in scripts/sign_all.py (lines 63-119),
with per-candidate verification results and engine outcomes supplied as an
oracle (`Candidate`), and the persistent-keyring side effects recorded. -/

/-- A side effect on the operator's persistent keyring: `import_key`,
`sign_key`, `export_key` (scripts/sign_all.py lines 100-107). -/
inductive SideEffect where
  | importKey (file : String)
  | signKey (keyId : String)
  | exportKey (keyId : String) (out : String)
deriving DecidableEq

/-- The classification the loop prints for a candidate before any signing
side effect: parse failure, course-key skip, own-key skip, trust (course
signature) failure, or "verified course signature" (live: sign; dry run:
would sign). -/
inductive Decision where
  | skipParse
  | skipCourse
  | skipOwn
  | skipTrust
  | signAttempt
deriving DecidableEq

/-- One batch candidate: the key file's base name, the verification result
`verify_key_file` returned for it, and the engine's replies to the live
`sign_key` and `export_key` calls. -/
structure Candidate where
  filename : String
  isValid : Bool
  keyInfo : Option KeyInfo
  signOk : Bool
  exportOk : Bool
deriving DecidableEq

/-- What processing one candidate contributes: the deltas to
`signed_count` and `skipped_count`, the printed classification, and the
persistent-keyring side effects. -/
structure CandOutcome where
  signed : Nat
  skipped : Nat
  decision : Decision
  effects : List SideEffect
deriving DecidableEq

/-- The batch summary: final counts, the per-candidate classifications in
order, and all persistent-keyring side effects in order. -/
structure BatchResult where
  signed : Nat
  skipped : Nat
  decisions : List Decision
  effects : List SideEffect
deriving DecidableEq

/-- The loop body of `main` (scripts/sign_all.py lines 63-115): no parsed
key → skipped; course key → silent skip (no count); own key → silent skip
(no count); not course-verified → skipped; verified → in dry-run count as
signed with no side effect, in live mode import, sign and (on signing
success) export, counting a sign or export failure as skipped. -/
def processCandidate (dryRun : Bool) (myId outputDir : String) (c : Candidate) :
    CandOutcome :=
  match c.keyInfo with
  | none => { signed := 0, skipped := 1, decision := .skipParse, effects := [] }
  | some ki =>
    if ki.is_course_key = true then
      { signed := 0, skipped := 0, decision := .skipCourse, effects := [] }
    else if ki.key_id = myId then
      { signed := 0, skipped := 0, decision := .skipOwn, effects := [] }
    else if c.isValid = false then
      { signed := 0, skipped := 1, decision := .skipTrust, effects := [] }
    else if dryRun = true then
      { signed := 1, skipped := 0, decision := .signAttempt, effects := [] }
    else if c.signOk = true then
      if c.exportOk = true then
        { signed := 1, skipped := 0, decision := .signAttempt,
          effects := [.importKey c.filename, .signKey ki.key_id,
                      .exportKey ki.key_id (outputDir ++ "/" ++ c.filename)] }
      else
        { signed := 0, skipped := 1, decision := .signAttempt,
          effects := [.importKey c.filename, .signKey ki.key_id,
                      .exportKey ki.key_id (outputDir ++ "/" ++ c.filename)] }
    else
      { signed := 0, skipped := 1, decision := .signAttempt,
        effects := [.importKey c.filename, .signKey ki.key_id] }

/-- The batch loop of `main` (scripts/sign_all.py lines 60-119) over the
(already sorted) candidate list, accumulating counts, classifications and
side effects. -/
def processBatch (dryRun : Bool) (myId outputDir : String) :
    List Candidate → BatchResult
  | [] => { signed := 0, skipped := 0, decisions := [], effects := [] }
  | c :: rest =>
    let o := processCandidate dryRun myId outputDir c
    let r := processBatch dryRun myId outputDir rest
    { signed := o.signed + r.signed, skipped := o.skipped + r.skipped,
      decisions := o.decision :: r.decisions, effects := o.effects ++ r.effects }

/-! ### Concrete streams and batches used by the claim theorems -/

/-- A student block whose first course-signer `sig` record has validity
`-` and whose second has validity `!`. -/
def exC1 : String := "pub:u:3:1:STUDENT0KEY00001\nsig:-:a:b:A049C765A07C89D8:c:d:e:f:CPSC:g:h:4DD5B3791798E493F6499F8DA049C765A07C89D8\nsig:!:a:b:A049C765A07C89D8:c:d:e:f:CPSC:g:h:4DD5B3791798E493F6499F8DA049C765A07C89D8"

/-- A stream holding only the course key's own block with its good
self-signature. -/
def exC2 : String := "pub:u:3:1:A049C765A07C89D8\nsig:!:a:b:A049C765A07C89D8:c:d:e:f:CPSC:g:h:4DD5B3791798E493F6499F8DA049C765A07C89D8"

/-- A student block, then a `pub` record with no short-id field, then a
good course-signer `sig` record. -/
def exC4a : String := "pub:u:3:1:STUDENT0KEY00001\npub:x\nsig:!:a:b:A049C765A07C89D8:c:d:e:f:CPSC:g:h:4DD5B3791798E493F6499F8DA049C765A07C89D8"

/-- The same tail as `exC4a` but without the leading student block. -/
def exC4b : String := "pub:x\nsig:!:a:b:A049C765A07C89D8:c:d:e:f:CPSC:g:h:4DD5B3791798E493F6499F8DA049C765A07C89D8"

/-- A subject block and a good `sig` record from another signer that has
only 5 fields (no signer-uid field 9). -/
def exC5 : String := "pub:u:3:1:AAAAKEYID\nsig:!:0:1:BBBBKEYID"

/-- A subject block whose only `sig` record is a good self-signature. -/
def exC5self : String := "pub:u:3:1:AAAAKEYID\nsig:!:a:b:AAAAKEYID:c:d:e:f:Alice"

/-- A good `sig` record appearing before any `pub` record. -/
def exC10 : String := "sig:!:a:b:BBBBKEYID:c:d:e:f:Bob"

/-- The operator's own key id in the batch scenario. -/
def myKeyId : String := "MYOWNKEY00000001"

/-- The parsed key identity of batch candidate 1. -/
def aliceKey : KeyInfo :=
  { key_id := "ALICEKEY00000001",
    fingerprint := "1111111111111111111111111111111111111111",
    uid := "Alice", filepath := some "keys/alice.asc",
    has_course_signature := true, is_course_key := false }

/-- The parsed key identity of batch candidate 2 (the course key). -/
def courseKey : KeyInfo :=
  { key_id := COURSE_LONG_ID,
    fingerprint := COURSE_FINGERPRINT,
    uid := "CPSC4130", filepath := some "keys/course.asc",
    has_course_signature := false, is_course_key := true }

/-- The parsed key identity of batch candidate 3. -/
def carolKey : KeyInfo :=
  { key_id := "CAROLKEY00000001",
    fingerprint := "2222222222222222222222222222222222222222",
    uid := "Carol", filepath := some "keys/carol.asc",
    has_course_signature := false, is_course_key := false }

/-- Batch candidate 1: parses, is course-verified, engine succeeds. -/
def candGood : Candidate :=
  { filename := "alice.asc", isValid := true, keyInfo := some aliceKey,
    signOk := true, exportOk := true }

/-- Batch candidate 2: the course key itself. -/
def candCourse : Candidate :=
  { filename := "course.asc", isValid := false, keyInfo := some courseKey,
    signOk := true, exportOk := true }

/-- Batch candidate 3: parses but carries no course signature. -/
def candNoSig : Candidate :=
  { filename := "carol.asc", isValid := false, keyInfo := some carolKey,
    signOk := true, exportOk := true }

/-- The three-candidate batch of the end-to-end scenario. -/
def exBatch : List Candidate := [candGood, candCourse, candNoSig]

/-! ## Helper lemmas -/

theorem find?_append_eq {α : Type} (p : α → Bool) (L₁ L₂ : List α) :
    (L₁ ++ L₂).find? p =
      match L₁.find? p with
      | some x => some x
      | none => L₂.find? p := by
  induction L₁ with
  | nil => simp
  | cons a t ih =>
    cases h : p a with
    | true => simp [List.find?_cons, h]
    | false => simp [List.find?_cons, h, ih]

theorem find?_mono_eq {α : Type} (p q : α → Bool)
    (hpq : ∀ x, q x = true → p x = true) :
    ∀ (L : List α) (x : α), L.find? p = some x → q x = true →
      L.find? q = some x := by
  intro L
  induction L with
  | nil => intro x h _; simp at h
  | cons a t ih =>
    intro x h hq
    cases hp : p a with
    | true =>
      rw [List.find?_cons, hp] at h
      simp at h
      subst h
      rw [List.find?_cons, hq]
    | false =>
      have hqa : q a = false := by
        cases hqa : q a with
        | false => rfl
        | true => rw [hpq a hqa] at hp; exact absurd hp (by simp)
      rw [List.find?_cons, hp] at h
      rw [List.find?_cons, hqa]
      exact ih x h hq

theorem isFullPub_imp_isPubRec (l : String) (h : isFullPub l = true) :
    isPubRec l = true := by
  have h' := of_decide_eq_true h
  exact decide_eq_true ⟨by omega, h'.1⟩

theorem isFullPub_of_sig_false (l : String)
    (h : (lineParts l).getD 0 "" = "sig") : isFullPub l = false := by
  unfold isFullPub
  rw [h]
  simp

theorem stuUpd_of_sig (st : Bool) (l : String) (h : sigMatchLine l = true) :
    stuUpd st l = st := by
  have h' := of_decide_eq_true h
  rw [stuUpd, isFullPub_of_sig_false l h'.1]
  rfl

theorem lineAt_succ_cons (l : String) (rest : List String) (i : Nat) :
    lineAt (l :: rest) (i + 1) = lineAt rest i := by
  simp [lineAt]

theorem stuAt_succ_cons (st : Bool) (l : String) (rest : List String) (i : Nat) :
    stuAt st (l :: rest) (i + 1) = stuAt (stuUpd st l) rest i := by
  simp [stuAt, List.take_succ_cons]

theorem fireAt_succ_cons (st : Bool) (l : String) (rest : List String) (i : Nat) :
    fireAt st (l :: rest) (i + 1) = fireAt (stuUpd st l) rest i := by
  simp [fireAt, lineAt_succ_cons, stuAt_succ_cons]

theorem fireAt_zero_cons (st : Bool) (l : String) (rest : List String) :
    fireAt st (l :: rest) 0 = (sigMatchLine l && st) := rfl

theorem foldl_stuUpd_eq (L : List String) : ∀ st : Bool,
    L.foldl stuUpd st =
      match L.reverse.find? isFullPub with
      | some p => decide ((lineParts p).getD 4 "" ≠ COURSE_LONG_ID)
      | none => st := by
  induction L with
  | nil => intro st; rfl
  | cons l t ih =>
    intro st
    rw [List.foldl_cons, ih (stuUpd st l), List.reverse_cons, find?_append_eq]
    cases h : t.reverse.find? isFullPub with
    | some p => rfl
    | none =>
      cases hf : isFullPub l with
      | true => simp [List.find?_cons, hf, stuUpd]
      | false => simp [List.find?_cons, hf, stuUpd]

theorem stuAt_eq_codeBlockId (lines : List String) (i : Nat) :
    stuAt false lines i =
      match codeBlockId lines i with
      | some k => decide (k ≠ COURSE_LONG_ID)
      | none => false := by
  unfold stuAt codeBlockId
  rw [foldl_stuUpd_eq]
  cases h : ((lines.take i).reverse).find? isFullPub <;> simp [h]

theorem fireAt_false_eq (lines : List String) (i : Nat) :
    fireAt false lines i = codeRootFireAt lines i := by
  unfold fireAt codeRootFireAt
  rw [stuAt_eq_codeBlockId]

theorem sigMatch_imp_claimMatch (l : String) (h : sigMatchLine l = true) :
    claimRootMatch l = true := by
  obtain ⟨h0, h12, hor⟩ := of_decide_eq_true h
  have h2 : 2 ≤ (lineParts l).length := by omega
  have h4 : 4 < (lineParts l).length := by omega
  unfold claimRootMatch isSigRec sigSignerFpr sigSignerId
  rw [Bool.and_eq_true]
  refine ⟨decide_eq_true ⟨h2, h0⟩, decide_eq_true ?_⟩
  cases hor with
  | inl hf => exact Or.inl (by rw [if_pos h12, hf])
  | inr hi => exact Or.inr (by rw [if_pos h4, hi])

theorem checkLines_true_iff (lines : List String) : ∀ st : Bool,
    checkLines st lines = true ↔
      ∃ i, i < lines.length ∧ fireAt st lines i = true ∧
        (lineParts (lineAt lines i)).getD 1 "" = "!" ∧
        ∀ j, j < i → fireAt st lines j = false := by
  induction lines with
  | nil =>
    intro st
    simp [checkLines]
  | cons l rest ih =>
    intro st
    by_cases h : (sigMatchLine l && stuUpd st l) = true
    · obtain ⟨hsig, hstu⟩ : sigMatchLine l = true ∧ stuUpd st l = true := by
        simpa using h
      have hupd : stuUpd st l = st := stuUpd_of_sig st l hsig
      have hst : st = true := hupd ▸ hstu
      have hfire0 : fireAt st (l :: rest) 0 = true := by
        rw [fireAt_zero_cons, hsig, hst]; rfl
      rw [show checkLines st (l :: rest) =
            (if sigMatchLine l && stuUpd st l then
              decide ((lineParts l).getD 1 "" = "!")
            else checkLines (stuUpd st l) rest) from rfl,
          if_pos h]
      constructor
      · intro hv
        exact ⟨0, Nat.succ_pos _, hfire0, of_decide_eq_true hv,
               fun j hj => absurd hj (Nat.not_lt_zero j)⟩
      · rintro ⟨i, hi, hf, hv, hmin⟩
        cases i with
        | zero => exact decide_eq_true hv
        | succ k =>
          have h0 := hmin 0 (Nat.succ_pos k)
          rw [hfire0] at h0
          exact absurd h0 (by simp)
    · have hfire0 : fireAt st (l :: rest) 0 = false := by
        rw [fireAt_zero_cons]
        cases hs : sigMatchLine l with
        | false => rfl
        | true =>
          have hupd : stuUpd st l = st := stuUpd_of_sig st l hs
          rw [hupd, hs] at h
          cases hst : st with
          | false => rfl
          | true => rw [hst] at h; exact absurd rfl h
      rw [show checkLines st (l :: rest) =
            (if sigMatchLine l && stuUpd st l then
              decide ((lineParts l).getD 1 "" = "!")
            else checkLines (stuUpd st l) rest) from rfl,
          if_neg h, ih (stuUpd st l)]
      constructor
      · rintro ⟨i, hi, hf, hv, hmin⟩
        refine ⟨i + 1, Nat.succ_lt_succ hi, ?_, ?_, ?_⟩
        · rw [fireAt_succ_cons]; exact hf
        · rw [lineAt_succ_cons]; exact hv
        · intro j hj
          cases j with
          | zero => exact hfire0
          | succ m =>
            rw [fireAt_succ_cons]
            exact hmin m (Nat.lt_of_succ_lt_succ hj)
      · rintro ⟨i, hi, hf, hv, hmin⟩
        cases i with
        | zero => rw [hfire0] at hf; exact absurd hf (by simp)
        | succ k =>
          refine ⟨k, Nat.lt_of_succ_lt_succ hi, ?_, ?_, ?_⟩
          · rw [fireAt_succ_cons] at hf; exact hf
          · rw [lineAt_succ_cons] at hv; exact hv
          · intro j hj
            have hj1 := hmin (j + 1) (Nat.succ_lt_succ hj)
            rw [fireAt_succ_cons] at hj1
            exact hj1

theorem checkLines_skip_of_noFullPub : ∀ (pre rest : List String),
    (∀ x ∈ pre, isFullPub x = false) →
    checkLines false (pre ++ rest) = checkLines false rest := by
  intro pre
  induction pre with
  | nil => intro rest _; rfl
  | cons a t ih =>
    intro rest hall
    have ha : isFullPub a = false := hall a (List.mem_cons_self a t)
    have hupd : stuUpd false a = false := by simp [stuUpd, ha]
    rw [List.cons_append,
        show checkLines false (a :: (t ++ rest)) =
          (if sigMatchLine a && stuUpd false a then
            decide ((lineParts a).getD 1 "" = "!")
          else checkLines (stuUpd false a) (t ++ rest)) from rfl,
        hupd]
    rw [if_neg (by simp)]
    exact ih rest (fun x hx => hall x (List.mem_cons_of_mem a hx))

theorem curUpd_not_pub (cur : Option String) (l : String)
    (h : isPubRec l = false) : curUpd cur l = cur := by
  simp [curUpd, h]

theorem count_sig_line_upd (cur : Option String) (l : String) :
    count_sig_line (curUpd cur l) l = count_sig_line cur l := by
  cases hp : isPubRec l with
  | false => rw [curUpd_not_pub cur l hp]
  | true =>
    have h0 : (lineParts l).getD 0 "" = "pub" := (of_decide_eq_true hp).2
    unfold count_sig_line
    rw [if_neg (by rw [h0]; rintro ⟨hc, -⟩; simp at hc),
        if_neg (by rw [h0]; rintro ⟨hc, -⟩; simp at hc)]

theorem count_sig_line_short (cur : Option String) (l : String)
    (h : (lineParts l).length < 2) : count_sig_line cur l = none := by
  unfold count_sig_line
  rw [if_neg]
  rintro ⟨-, h9, -⟩
  omega

theorem subjFrom_zero (cur : Option String) (L : List String) :
    subjFrom cur L 0 = cur := rfl

theorem subjFrom_succ_cons (cur : Option String) (l : String)
    (rest : List String) (i : Nat) :
    subjFrom cur (l :: rest) (i + 1) = subjFrom (curUpd cur l) rest i := by
  unfold subjFrom
  rw [List.take_succ_cons, List.reverse_cons, find?_append_eq]
  cases h : (rest.take i).reverse.find? isPubRec with
  | some p => rfl
  | none =>
    cases hp : isPubRec l with
    | true => simp [List.find?_cons, hp, curUpd]
    | false => simp [List.find?_cons, hp, curUpd]

theorem subjAt_eq_subjFrom (lines : List String) (i : Nat) :
    subjAt lines i = subjFrom none lines i := by
  unfold subjAt subjFrom nearestPubLine
  cases h : ((lines.take i).reverse).find? isPubRec <;> simp [h]

theorem countSigAux_eq (L : List String) : ∀ cur : Option String,
    countSigAux cur L =
      (List.range L.length).filterMap
        (fun i => count_sig_line (subjFrom cur L i) (lineAt L i)) := by
  induction L with
  | nil => intro cur; rfl
  | cons l rest ih =>
    intro cur
    have hshift :
        (fun i => count_sig_line (subjFrom cur (l :: rest) (i + 1))
          (lineAt (l :: rest) (i + 1)))
        = (fun i => count_sig_line (subjFrom (curUpd cur l) rest i)
          (lineAt rest i)) := by
      funext i
      rw [subjFrom_succ_cons, lineAt_succ_cons]
    have hrange :
        (List.range (l :: rest).length).filterMap
          (fun i => count_sig_line (subjFrom cur (l :: rest) i)
            (lineAt (l :: rest) i))
        = match count_sig_line cur l with
          | some u => u :: (List.range rest.length).filterMap
              (fun i => count_sig_line (subjFrom (curUpd cur l) rest i)
                (lineAt rest i))
          | none => (List.range rest.length).filterMap
              (fun i => count_sig_line (subjFrom (curUpd cur l) rest i)
                (lineAt rest i)) := by
      rw [show (l :: rest).length = rest.length + 1 from rfl,
          List.range_succ_eq_map, List.filterMap_cons, List.filterMap_map]
      have hcomp :
          ((fun i => count_sig_line (subjFrom cur (l :: rest) i)
            (lineAt (l :: rest) i)) ∘ Nat.succ)
          = (fun i => count_sig_line (subjFrom (curUpd cur l) rest i)
            (lineAt rest i)) := by
        funext i
        exact congrFun hshift i
      rw [hcomp]
      have hf0 : count_sig_line (subjFrom cur (l :: rest) 0)
          (lineAt (l :: rest) 0) = count_sig_line cur l := rfl
      rw [hf0]
      cases count_sig_line cur l <;> rfl
    rw [hrange]
    rw [show countSigAux cur (l :: rest) =
          (if (lineParts l).length < 2 then countSigAux cur rest
           else match count_sig_line (curUpd cur l) l with
             | some u => u :: countSigAux (curUpd cur l) rest
             | none => countSigAux (curUpd cur l) rest) from rfl]
    by_cases hlen : (lineParts l).length < 2
    · have hpr : isPubRec l = false := by
        unfold isPubRec
        rw [decide_eq_false_iff_not]
        rintro ⟨h2, -⟩
        omega
      rw [if_pos hlen, count_sig_line_short cur l hlen,
          curUpd_not_pub cur l hpr]
      exact ih cur
    · rw [if_neg hlen, count_sig_line_upd cur l]
      cases hc : count_sig_line cur l with
      | some u => rw [ih (curUpd cur l)]
      | none => exact ih (curUpd cur l)

theorem processCandidate_dry_effects (myId outputDir : String) (c : Candidate) :
    (processCandidate true myId outputDir c).effects = [] := by
  cases hk : c.keyInfo with
  | none => simp [processCandidate, hk]
  | some ki =>
    by_cases h1 : ki.is_course_key = true
    · simp [processCandidate, hk, h1]
    · by_cases h2 : ki.key_id = myId
      · simp [processCandidate, hk, h1, h2]
      · by_cases h3 : c.isValid = false
        · simp [processCandidate, hk, h1, h2, h3]
        · simp [processCandidate, hk, h1, h2, h3]

theorem processCandidate_decision_eq (myId outputDir : String) (c : Candidate) :
    (processCandidate true myId outputDir c).decision =
      (processCandidate false myId outputDir c).decision := by
  cases hk : c.keyInfo with
  | none => simp [processCandidate, hk]
  | some ki =>
    by_cases h1 : ki.is_course_key = true
    · simp [processCandidate, hk, h1]
    · by_cases h2 : ki.key_id = myId
      · simp [processCandidate, hk, h1, h2]
      · by_cases h3 : c.isValid = false
        · simp [processCandidate, hk, h1, h2, h3]
        · by_cases h4 : c.signOk = true
          · by_cases h5 : c.exportOk = true
            · simp [processCandidate, hk, h1, h2, h3, h4, h5]
            · simp [processCandidate, hk, h1, h2, h3, h4, h5]
          · simp [processCandidate, hk, h1, h2, h3, h4]

/-! ## Claim theorems -/

/-- C1, counterexample.  The claim says: a `sig` record in the candidate's
block with validity exactly `"!"` and a root-matching signer forces
`isValid = true`.  In the stream `exC1` the candidate block's third line is
exactly such a record (good validity, signer fingerprint equal to the
course fingerprint, inside the student block), yet the verifier answers
false, because the scan already returned at the *first* root-matching `sig`
record, whose validity is `-`. -/
theorem C1_counterexample :
    claimGoodRootSig (lineAt (splitChar '\n' exC1) 2) = true ∧
    inCandidateBlock (splitChar '\n' exC1) 2 = true ∧
    check_course_signature exC1 = false := by
  decide

/-- C1, amended.  The signature check returns true iff the *first* (in
stream order) `sig` record that carries a signer-fingerprint field (more
than 12 fields), matches the course fingerprint (field 12) or course short
id (field 4), and lies in a student block (the nearest preceding `pub`
record with a short-id field names a non-course key) has validity exactly
`"!"`; with no such record, or with any other validity symbol on the first
one, the result is false. -/
theorem C1_amended (s : String) :
    check_course_signature s = true ↔
      ∃ i, i < (splitChar '\n' s).length ∧
        codeRootFireAt (splitChar '\n' s) i = true ∧
        (lineParts (lineAt (splitChar '\n' s) i)).getD 1 "" = "!" ∧
        ∀ j, j < i → codeRootFireAt (splitChar '\n' s) j = false := by
  have h := checkLines_true_iff (splitChar '\n' s) false
  simp only [fireAt_false_eq] at h
  exact h

/-- C2.  When every root-matching `sig` record of the stream is attributed
(nearest preceding `pub` record) to the course key's own block, the
verifier answers false: the root's self-signature block never produces a
positive result. -/
theorem C2 (s : String)
    (h : ∀ i, i < (splitChar '\n' s).length →
      claimRootMatch (lineAt (splitChar '\n' s) i) = true →
      (nearestPubLine (splitChar '\n' s) i).map pubShortId =
        some (some COURSE_LONG_ID)) :
    check_course_signature s = false := by
  cases hc : check_course_signature s with
  | false => rfl
  | true =>
    exfalso
    have hc' : checkLines false (splitChar '\n' s) = true := hc
    rw [checkLines_true_iff] at hc'
    obtain ⟨i, hi, hf, -, -⟩ := hc'
    obtain ⟨hm, hstu⟩ : sigMatchLine (lineAt (splitChar '\n' s) i) = true ∧
        stuAt false (splitChar '\n' s) i = true := by
      simpa [fireAt] using hf
    have hcm := sigMatch_imp_claimMatch _ hm
    have hnp := h i hi hcm
    cases hfind : nearestPubLine (splitChar '\n' s) i with
    | none => rw [hfind] at hnp; simp at hnp
    | some p =>
      rw [hfind] at hnp
      simp only [Option.map_some'] at hnp
      have hps : pubShortId p = some COURSE_LONG_ID := Option.some.inj hnp
      unfold nearestPubLine at hfind
      have hrec : isPubRec p = true := List.find?_some hfind
      have h4 : 4 < (lineParts p).length := by
        by_cases h4 : 4 < (lineParts p).length
        · exact h4
        · unfold pubShortId at hps
          rw [if_neg h4] at hps
          simp at hps
      have hid : (lineParts p).getD 4 "" = COURSE_LONG_ID := by
        unfold pubShortId at hps
        rw [if_pos h4] at hps
        exact Option.some.inj hps
      have hfull : isFullPub p = true :=
        decide_eq_true ⟨(of_decide_eq_true hrec).2, h4⟩
      have hfind2 : (((splitChar '\n' s).take i).reverse).find? isFullPub = some p :=
        find?_mono_eq isPubRec isFullPub isFullPub_imp_isPubRec _ p hfind hfull
      have hcb : codeBlockId (splitChar '\n' s) i = some COURSE_LONG_ID := by
        unfold codeBlockId
        rw [hfind2]
        show some ((lineParts p).getD 4 "") = some COURSE_LONG_ID
        rw [hid]
      rw [stuAt_eq_codeBlockId, hcb] at hstu
      simp at hstu

/-- C2, witness: a stream holding only the course key's own block and its
good self-signature satisfies the hypothesis and yields false. -/
theorem C2_witness : check_course_signature exC2 = false :=
  C2 exC2 (by decide)

/-- C3, counterexample.  The claim says the three-candidate scenario (good
candidate, course key, unverified candidate) reports 2 skipped.  The batch
loop reports 1 signed and only 1 skipped: the course-key skip prints its
message and `continue`s without touching `skipped_count`. -/
theorem C3_counterexample :
    (processBatch true myKeyId "signed/me" exBatch).signed = 1 ∧
    (processBatch true myKeyId "signed/me" exBatch).skipped = 1 ∧
    (processBatch true myKeyId "signed/me" exBatch).skipped ≠ 2 := by
  decide

/-- C3, amended.  In the scenario the summary is 1 signed (or would-sign in
dry run) and 1 counted skip: candidate 2 is skipped by identity policy
(`skipCourse`, distinct from the trust failure `skipTrust` of candidate 3)
but its skip is not added to the skipped count; candidate 3's trust-failure
skip is counted.  Both dry-run and live mode classify identically. -/
theorem C3_amended :
    processBatch true myKeyId "signed/me" exBatch =
      { signed := 1, skipped := 1,
        decisions := [Decision.signAttempt, Decision.skipCourse, Decision.skipTrust],
        effects := [] } ∧
    processBatch false myKeyId "signed/me" exBatch =
      { signed := 1, skipped := 1,
        decisions := [Decision.signAttempt, Decision.skipCourse, Decision.skipTrust],
        effects := [SideEffect.importKey "alice.asc",
                    SideEffect.signKey "ALICEKEY00000001",
                    SideEffect.exportKey "ALICEKEY00000001" "signed/me/alice.asc"] } := by
  decide

/-- C4, counterexample.  The claim says every `sig` record is attributed to
the nearest preceding `pub` record, never to another block.  In `exC4a` the
`sig` record's nearest preceding `pub` record is `pub:x`, which has no
short-id field, yet the scan still treats the record as belonging to the
earlier student block: with that earlier block present the check returns
true, and with it removed (`exC4b`, identical otherwise) it returns false,
so the record's treatment is decided by another block's `pub`. -/
theorem C4_counterexample :
    isSigRec (lineAt (splitChar '\n' exC4a) 2) = true ∧
    nearestPubLine (splitChar '\n' exC4a) 2 = some "pub:x" ∧
    pubShortId "pub:x" = none ∧
    check_course_signature exC4a = true ∧
    check_course_signature exC4b = false := by
  decide

/-- C4, amended.  (a) The scan's block state at every position equals the
verdict of the nearest preceding `pub` record *that carries a short-id
field* (more than 4 fields): `pub` records without a short id do not start
a new block.  (b) A `sig` record preceded by no such `pub` record is
attributed to nothing and discarded: deleting it never changes the check's
result. -/
theorem C4_amended :
    (∀ (lines : List String) (i : Nat),
      stuAt false lines i =
        match codeBlockId lines i with
        | some k => decide (k ≠ COURSE_LONG_ID)
        | none => false) ∧
    (∀ (pre post : List String) (l : String),
      (∀ x ∈ pre, isFullPub x = false) → isSigRec l = true →
      checkLines false (pre ++ l :: post) = checkLines false (pre ++ post)) := by
  constructor
  · exact stuAt_eq_codeBlockId
  · intro pre post l hpre hsig
    have hl : isFullPub l = false :=
      isFullPub_of_sig_false l (of_decide_eq_true hsig).2
    have hone : checkLines false (l :: post) = checkLines false post := by
      have h := checkLines_skip_of_noFullPub [l] post
        (by intro x hx; rw [List.mem_singleton] at hx; rw [hx]; exact hl)
      rw [List.singleton_append] at h
      exact h
    rw [checkLines_skip_of_noFullPub pre (l :: post) hpre, hone,
        checkLines_skip_of_noFullPub pre post hpre]

/-- C5, counterexample.  The claim says a `sig` record counts iff its
validity is `"!"` and its signer short id differs from the subject's.  In
`exC5` the only `sig` record has validity `"!"` and signer `BBBBKEYID`
distinct from the subject `AAAAKEYID`, yet `count_signatures` returns
`(0, [])`: the record has only 5 fields, and the loop demands more than 9
(a signer-uid field) before counting. -/
theorem C5_counterexample :
    sigValidity (lineAt (splitChar '\n' exC5) 1) = some "!" ∧
    sigSignerId (lineAt (splitChar '\n' exC5) 1) = some "BBBBKEYID" ∧
    subjAt (splitChar '\n' exC5) 1 = some "AAAAKEYID" ∧
    isSigRec (lineAt (splitChar '\n' exC5) 1) = true ∧
    count_signatures exC5 = (0, []) := by
  decide

/-- C5, amended.  `count_signatures` returns exactly the signer uids of the
`sig` records that carry a signer-uid field (more than 9 fields), have
validity `"!"`, and whose signer short id differs from the tracked subject
(the optional short id of the nearest preceding `pub` record), in stream
order with duplicates preserved, paired with the length of that list; and
the self-signature-only stream yields count 0. -/
theorem C5_amended :
    (∀ s : String,
      count_signatures s =
        ((specSigners (splitChar '\n' s)).length, specSigners (splitChar '\n' s))) ∧
    count_signatures exC5self = (0, []) := by
  constructor
  · intro s
    have h1 : countSigAux none (splitChar '\n' s) = specSigners (splitChar '\n' s) := by
      rw [countSigAux_eq]
      unfold specSigners
      have hfun : (fun i => count_sig_line (subjFrom none (splitChar '\n' s) i)
            (lineAt (splitChar '\n' s) i))
          = (fun i => count_sig_line (subjAt (splitChar '\n' s) i)
            (lineAt (splitChar '\n' s) i)) := by
        funext i
        rw [subjAt_eq_subjFrom]
      rw [hfun]
    show ((countSigAux none (splitChar '\n' s)).length,
          countSigAux none (splitChar '\n' s)) = _
    rw [h1]
  · decide

/-- C6.  Every run of the verifier keeps all engine operations inside the
one ephemeral keyring: every event of the trace is scoped to the fresh
`tmpdir` (in particular no gpg call runs against the caller's persistent
keyring, whose homedir would be `none`), and the trace is either empty
(the pre-context fast-fails) or begins with creating the context and ends
with tearing it down, on every exit path. -/
theorem C6 (tmpdir : String) (pathExists : Bool) (keyfile_path : String)
    (eng : GpgEngine) :
    ((verify_key_file tmpdir pathExists keyfile_path eng).2.all
      (scopedTo tmpdir) = true) ∧
    ((verify_key_file tmpdir pathExists keyfile_path eng).2 = [] ∨
      ∃ mid, (verify_key_file tmpdir pathExists keyfile_path eng).2 =
        VEvent.mkdtemp tmpdir :: mid ++ [VEvent.rmtree tmpdir]) := by
  by_cases h1 : pathExists = false
  · have htr : (verify_key_file tmpdir pathExists keyfile_path eng).2 = [] := by
      simp [verify_key_file, h1]
    rw [htr]
    exact ⟨rfl, Or.inl rfl⟩
  · by_cases h2 : strEndsWith keyfile_path ".asc" = false
    · have htr : (verify_key_file tmpdir pathExists keyfile_path eng).2 = [] := by
        simp [verify_key_file, h1, h2]
      rw [htr]
      exact ⟨rfl, Or.inl rfl⟩
    · by_cases h3 : eng.importFileRc = 0
      · cases hki : parse_key_info eng.listKeysOut with
        | none =>
          have htr : (verify_key_file tmpdir pathExists keyfile_path eng).2 =
              [VEvent.mkdtemp tmpdir, VEvent.gpgImportFile (some tmpdir) keyfile_path,
               VEvent.gpgListKeys (some tmpdir), VEvent.rmtree tmpdir] := by
            simp [verify_key_file, h1, h2, h3, hki]
          rw [htr]
          exact ⟨by simp [scopedTo],
            Or.inr ⟨[VEvent.gpgImportFile (some tmpdir) keyfile_path,
                     VEvent.gpgListKeys (some tmpdir)], rfl⟩⟩
        | some ki0 =>
          by_cases h4 : ki0.is_course_key = true
          · have htr : (verify_key_file tmpdir pathExists keyfile_path eng).2 =
                [VEvent.mkdtemp tmpdir, VEvent.gpgImportFile (some tmpdir) keyfile_path,
                 VEvent.gpgListKeys (some tmpdir), VEvent.rmtree tmpdir] := by
              simp [verify_key_file, h1, h2, h3, hki, h4]
            rw [htr]
            exact ⟨by simp [scopedTo],
              Or.inr ⟨[VEvent.gpgImportFile (some tmpdir) keyfile_path,
                       VEvent.gpgListKeys (some tmpdir)], rfl⟩⟩
          · by_cases h5 : eng.importCourseRc = 0
            · by_cases h6 : check_course_signature eng.checkSigsOut = true
              · have htr : (verify_key_file tmpdir pathExists keyfile_path eng).2 =
                    [VEvent.mkdtemp tmpdir,
                     VEvent.gpgImportFile (some tmpdir) keyfile_path,
                     VEvent.gpgListKeys (some tmpdir),
                     VEvent.gpgImportText (some tmpdir),
                     VEvent.gpgCheckSigs (some tmpdir), VEvent.rmtree tmpdir] := by
                  simp [verify_key_file, h1, h2, h3, hki, h4, h5, h6]
                rw [htr]
                exact ⟨by simp [scopedTo],
                  Or.inr ⟨[VEvent.gpgImportFile (some tmpdir) keyfile_path,
                           VEvent.gpgListKeys (some tmpdir),
                           VEvent.gpgImportText (some tmpdir),
                           VEvent.gpgCheckSigs (some tmpdir)], rfl⟩⟩
              · have htr : (verify_key_file tmpdir pathExists keyfile_path eng).2 =
                    [VEvent.mkdtemp tmpdir,
                     VEvent.gpgImportFile (some tmpdir) keyfile_path,
                     VEvent.gpgListKeys (some tmpdir),
                     VEvent.gpgImportText (some tmpdir),
                     VEvent.gpgCheckSigs (some tmpdir), VEvent.rmtree tmpdir] := by
                  simp [verify_key_file, h1, h2, h3, hki, h4, h5, h6]
                rw [htr]
                exact ⟨by simp [scopedTo],
                  Or.inr ⟨[VEvent.gpgImportFile (some tmpdir) keyfile_path,
                           VEvent.gpgListKeys (some tmpdir),
                           VEvent.gpgImportText (some tmpdir),
                           VEvent.gpgCheckSigs (some tmpdir)], rfl⟩⟩
            · have htr : (verify_key_file tmpdir pathExists keyfile_path eng).2 =
                  [VEvent.mkdtemp tmpdir,
                   VEvent.gpgImportFile (some tmpdir) keyfile_path,
                   VEvent.gpgListKeys (some tmpdir),
                   VEvent.gpgImportText (some tmpdir), VEvent.rmtree tmpdir] := by
                simp [verify_key_file, h1, h2, h3, hki, h4, h5]
              rw [htr]
              exact ⟨by simp [scopedTo],
                Or.inr ⟨[VEvent.gpgImportFile (some tmpdir) keyfile_path,
                         VEvent.gpgListKeys (some tmpdir),
                         VEvent.gpgImportText (some tmpdir)], rfl⟩⟩
      · have htr : (verify_key_file tmpdir pathExists keyfile_path eng).2 =
            [VEvent.mkdtemp tmpdir, VEvent.gpgImportFile (some tmpdir) keyfile_path,
             VEvent.rmtree tmpdir] := by
          simp [verify_key_file, h1, h2, h3]
        rw [htr]
        exact ⟨by simp [scopedTo],
          Or.inr ⟨[VEvent.gpgImportFile (some tmpdir) keyfile_path], rfl⟩⟩

/-- C7.  In dry-run mode the batch performs no persistent-keyring side
effect at all (no import, sign or export), and classifies every candidate
exactly as live mode would. -/
theorem C7 (myId outputDir : String) (cs : List Candidate) :
    (processBatch true myId outputDir cs).effects = [] ∧
    (processBatch true myId outputDir cs).decisions =
      (processBatch false myId outputDir cs).decisions := by
  induction cs with
  | nil => exact ⟨rfl, rfl⟩
  | cons c rest ih =>
    obtain ⟨ihe, ihd⟩ := ih
    constructor
    · show (processCandidate true myId outputDir c).effects ++
        (processBatch true myId outputDir rest).effects = []
      rw [ihe, processCandidate_dry_effects, List.append_nil]
    · show (processCandidate true myId outputDir c).decision ::
        (processBatch true myId outputDir rest).decisions =
        (processCandidate false myId outputDir c).decision ::
        (processBatch false myId outputDir rest).decisions
      rw [ihd, processCandidate_decision_eq]

/-- C8.  The verifier's fast-fail checks, in order, each produce a distinct
non-valid result: missing file → "File not found" with no context created;
wrong extension → "File extension must be .asc"; failed candidate import →
"Failed to import key" carrying the engine's stderr; unparsable key listing
→ "Could not parse key information" with no further engine call (only
mkdtemp, import, list-keys, teardown appear in the trace); and a candidate
whose verification yields no key info is skipped by the batch, which
continues with the remaining candidates unchanged. -/
theorem C8 :
    (∀ (tmpdir keyfile_path : String) (eng : GpgEngine),
      verify_key_file tmpdir false keyfile_path eng =
        ((false, "File not found: " ++ keyfile_path, none), [])) ∧
    (∀ (tmpdir keyfile_path : String) (eng : GpgEngine),
      strEndsWith keyfile_path ".asc" = false →
      verify_key_file tmpdir true keyfile_path eng =
        ((false, "File extension must be .asc: " ++ keyfile_path, none), [])) ∧
    (∀ (tmpdir keyfile_path : String) (eng : GpgEngine),
      strEndsWith keyfile_path ".asc" = true → eng.importFileRc ≠ 0 →
      verify_key_file tmpdir true keyfile_path eng =
        ((false, "Failed to import key: " ++ eng.importFileErr, none),
         [VEvent.mkdtemp tmpdir, VEvent.gpgImportFile (some tmpdir) keyfile_path,
          VEvent.rmtree tmpdir])) ∧
    (∀ (tmpdir keyfile_path : String) (eng : GpgEngine),
      strEndsWith keyfile_path ".asc" = true → eng.importFileRc = 0 →
      parse_key_info eng.listKeysOut = none →
      verify_key_file tmpdir true keyfile_path eng =
        ((false, "Could not parse key information", none),
         [VEvent.mkdtemp tmpdir, VEvent.gpgImportFile (some tmpdir) keyfile_path,
          VEvent.gpgListKeys (some tmpdir), VEvent.rmtree tmpdir])) ∧
    (∀ (dryRun : Bool) (myId outputDir : String) (c : Candidate)
        (rest : List Candidate),
      c.keyInfo = none →
      processBatch dryRun myId outputDir (c :: rest) =
        { signed := (processBatch dryRun myId outputDir rest).signed,
          skipped := 1 + (processBatch dryRun myId outputDir rest).skipped,
          decisions := Decision.skipParse ::
            (processBatch dryRun myId outputDir rest).decisions,
          effects := (processBatch dryRun myId outputDir rest).effects }) := by
  refine ⟨?_, ?_, ?_, ?_, ?_⟩
  · intro tmpdir keyfile_path eng
    simp [verify_key_file]
  · intro tmpdir keyfile_path eng h
    simp [verify_key_file, h]
  · intro tmpdir keyfile_path eng h1 h2
    simp [verify_key_file, h1, h2]
  · intro tmpdir keyfile_path eng h1 h2 h3
    simp [verify_key_file, h1, h2, h3]
  · intro dryRun myId outputDir c rest h
    have hc : processCandidate dryRun myId outputDir c =
        { signed := 0, skipped := 1, decision := .skipParse, effects := [] } := by
      unfold processCandidate
      rw [h]
    show ({ signed := (processCandidate dryRun myId outputDir c).signed +
              (processBatch dryRun myId outputDir rest).signed,
            skipped := (processCandidate dryRun myId outputDir c).skipped +
              (processBatch dryRun myId outputDir rest).skipped,
            decisions := (processCandidate dryRun myId outputDir c).decision ::
              (processBatch dryRun myId outputDir rest).decisions,
            effects := (processCandidate dryRun myId outputDir c).effects ++
              (processBatch dryRun myId outputDir rest).effects } : BatchResult) = _
    rw [hc]
    simp

/-- C9.  The record parser never fails on malformed input: a line with
fewer than 2 colon-separated fields changes nothing (it is no record), and
a `pub`/`fpr`/`uid` record line shorter than the fixed index of its payload
field leaves that attribute absent (`none`) instead of failing.  (The
embedding is a total function, so no execution of `parse_key_info` can
raise.) -/
theorem C9 :
    (∀ (st : ParseState) (line : String),
      (lineParts line).length < 2 → parseStep st line = st) ∧
    (∀ (st : ParseState) (line : String),
      (lineParts line).getD 0 "" = "pub" → st.key_id = none →
      (lineParts line).length ≤ 4 → (parseStep st line).key_id = none) ∧
    (∀ (st : ParseState) (line : String),
      (lineParts line).getD 0 "" = "fpr" → st.fingerprint = none →
      (lineParts line).length ≤ 9 → (parseStep st line).fingerprint = none) ∧
    (∀ (st : ParseState) (line : String),
      (lineParts line).getD 0 "" = "uid" → st.uid = none →
      (lineParts line).length ≤ 9 → (parseStep st line).uid = none) := by
  refine ⟨?_, ?_, ?_, ?_⟩
  · intro st line h
    unfold parseStep
    rw [if_pos h]
  · intro st line h0 hk h4
    unfold parseStep
    by_cases hlen : (lineParts line).length < 2
    · rw [if_pos hlen]; exact hk
    · rw [if_neg hlen, if_pos ⟨h0, hk⟩]
      show (if 4 < (lineParts line).length
            then some ((lineParts line).getD 4 "") else none) = none
      rw [if_neg (by omega)]
  · intro st line h0 hf h9
    unfold parseStep
    by_cases hlen : (lineParts line).length < 2
    · rw [if_pos hlen]; exact hf
    · rw [if_neg hlen,
          if_neg (by rw [h0]; rintro ⟨hc, -⟩; simp at hc),
          if_pos ⟨h0, hf⟩]
      show (if 9 < (lineParts line).length
            then some ((lineParts line).getD 9 "") else none) = none
      rw [if_neg (by omega)]
  · intro st line h0 hu h9
    unfold parseStep
    by_cases hlen : (lineParts line).length < 2
    · rw [if_pos hlen]; exact hu
    · rw [if_neg hlen,
          if_neg (by rw [h0]; rintro ⟨hc, -⟩; simp at hc),
          if_neg (by rw [h0]; rintro ⟨hc, -⟩; simp at hc),
          if_pos ⟨h0, hu⟩]
      show (if 9 < (lineParts line).length
            then some ((lineParts line).getD 9 "") else none) = none
      rw [if_neg (by omega)]

/-- C10.  In `count_signatures`, a good (`"!"`) `sig` record carrying a
signer-uid field that appears before any `pub` record — so the tracked
subject id is still `None` — is counted as a non-self signature: its signer
uid appears in the returned list and the count is at least 1, instead of
the record being discarded as unattributed. -/
theorem C10 (s : String) (i : Nat)
    (hi : i < (splitChar '\n' s).length)
    (hpre : ∀ l ∈ (splitChar '\n' s).take i, isPubRec l = false)
    (hsig : (lineParts (lineAt (splitChar '\n' s) i)).getD 0 "" = "sig")
    (hlen : 9 < (lineParts (lineAt (splitChar '\n' s) i)).length)
    (hval : (lineParts (lineAt (splitChar '\n' s) i)).getD 1 "" = "!") :
    (lineParts (lineAt (splitChar '\n' s) i)).getD 9 "" ∈ (count_signatures s).2 ∧
    1 ≤ (count_signatures s).1 := by
  have hsubj : subjFrom none (splitChar '\n' s) i = none := by
    unfold subjFrom
    have hfind : (((splitChar '\n' s).take i).reverse).find? isPubRec = none := by
      rw [List.find?_eq_none]
      intro x hx
      rw [hpre x (List.mem_reverse.mp hx)]
      simp
    rw [hfind]
  have hcl : count_sig_line (subjFrom none (splitChar '\n' s) i)
      (lineAt (splitChar '\n' s) i)
      = some ((lineParts (lineAt (splitChar '\n' s) i)).getD 9 "") := by
    rw [hsubj]
    unfold count_sig_line
    rw [if_pos ⟨hsig, hlen, by simp, hval⟩]
  have hmem : (lineParts (lineAt (splitChar '\n' s) i)).getD 9 "" ∈
      countSigAux none (splitChar '\n' s) := by
    rw [countSigAux_eq]
    exact List.mem_filterMap.mpr ⟨i, List.mem_range.mpr hi, hcl⟩
  refine ⟨hmem, ?_⟩
  show 1 ≤ (countSigAux none (splitChar '\n' s)).length
  have hpos := List.length_pos.mpr (List.ne_nil_of_mem hmem)
  omega

/-- C10, witness: the single-line stream `exC10` is a good 10-field `sig`
record before any `pub` record; its signer uid `Bob` is returned and the
count is 1. -/
theorem C10_witness :
    (lineParts (lineAt (splitChar '\n' exC10) 0)).getD 9 "" ∈
      (count_signatures exC10).2 ∧
    1 ≤ (count_signatures exC10).1 :=
  C10 exC10 0 (by decide) (by decide) (by decide) (by decide) (by decide)

end Gpg
